import Mathlib

/-!
Verification of the atproto-oauth example application (blog-post record store
with best-effort PDS mirroring) against its natural-language specification.

The Rust source is shallowly embedded:
- `DateTime<Utc>` values are modelled as integer epoch seconds (the store
  persists them via `.timestamp()` and restores them via `from_timestamp`).
- The `tags` TEXT column holds a JSON-serialized array of strings; we model
  the column by the list it encodes, since serde_json round-trips
  `Vec<String>` exactly and every writer stores a serialized list.
- The SQLite `blog_posts` table is a list of rows (`uri` is the primary key;
  statements that filter on `uri` are modelled over all rows of the list).
- Remote XRPC calls (`put_record` / `create_record`) are modelled by an
  environment that fixes the outcome of each potential call of one mirror
  attempt, and handlers return the list of remote calls they issued.
-/

namespace Atproto

/-- Record data of the generated `com.crabdance.nandi.post` lexicon type
(`BlogPostRecordData` in the codegen module; field shapes are pinned by its
uses in examples/schema.rs and examples/basic_usage.rs). -/
structure BlogPostRecordData where
  title : String
  content : String
  summary : Option String
  tags : Option (List String)
  published : Option Bool
  created_at : Int
  updated_at : Option Int
deriving Repr, DecidableEq

/-- In-memory model `BlogPostFromDb` (examples/schema.rs). -/
structure BlogPostFromDb where
  uri : String
  author_did : String
  title : String
  content : String
  summary : Option String
  tags : List String
  published : Bool
  created_at : Int
  updated_at : Int
  indexed_at : Int
  handle : Option String
deriving Repr, DecidableEq

/-- One row of the `blog_posts` table. The `summary` column is nullable TEXT;
every other column is NOT NULL. -/
structure BlogRow where
  uri : String
  authorDid : String
  title : String
  content : String
  summary : Option String
  tags : List String
  published : Bool
  createdAt : Int
  updatedAt : Int
  indexedAt : Int
deriving Repr, DecidableEq

/-- The `blog_posts` table state. -/
abbrev BlogDb := List BlogRow

/-- BlogPostFromDb::from_codegen_record_data (schema.rs, lines 120-136).
The two `chrono::Utc::now()` calls are the explicit `now` argument. -/
def from_codegen_record_data (uri author_did : String) (data : BlogPostRecordData)
    (now : Int) : BlogPostFromDb :=
  { uri := uri
    author_did := author_did
    title := data.title
    content := data.content
    summary := data.summary
    tags := data.tags.getD []
    published := data.published.getD false
    created_at := data.created_at
    updated_at := data.updated_at.getD now
    indexed_at := now
    handle := none }

/-- BlogPostFromDb::to_codegen_record_data (schema.rs, lines 139-151). -/
def to_codegen_record_data (p : BlogPostFromDb) : BlogPostRecordData :=
  { title := p.title
    content := p.content
    summary := p.summary
    tags := if p.tags.isEmpty then none else some p.tags
    published := some p.published
    created_at := p.created_at
    updated_at := some p.updated_at }

/-- The row written by BlogPostFromDb::save and by the insert branch of
save_or_update (schema.rs, lines 207-228 and 252-269): the summary parameter
is `summary.unwrap_or_default()`, so the column is never NULL when written. -/
def toInsertRow (p : BlogPostFromDb) : BlogRow :=
  { uri := p.uri
    authorDid := p.author_did
    title := p.title
    content := p.content
    summary := some (p.summary.getD "")
    tags := p.tags
    published := p.published
    createdAt := p.created_at
    updatedAt := p.updated_at
    indexedAt := p.indexed_at }

/-- BlogPostFromDb::map_from_row (schema.rs, lines 160-190). -/
def map_from_row (row : BlogRow) : BlogPostFromDb :=
  { uri := row.uri
    author_did := row.authorDid
    title := row.title
    content := row.content
    summary := row.summary
    tags := row.tags
    published := row.published
    created_at := row.createdAt
    updated_at := row.updatedAt
    indexed_at := row.indexedAt
    handle := none }

/-- BlogPostFromDb::save (schema.rs, lines 207-228): a plain INSERT; fails
(UNIQUE constraint on the `uri` primary key) when a row with the same uri
exists. `none` models the SQLite error returned to the caller. -/
def save (p : BlogPostFromDb) (db : BlogDb) : Option BlogDb :=
  if db.any (fun r => r.uri == p.uri) then none
  else some (db ++ [toInsertRow p])

/-- The UPDATE branch of save_or_update (schema.rs, lines 239-249): sets
title, content, summary, tags, published, updatedAt, indexedAt; it does not
touch uri, authorDid or createdAt. -/
def updateRow (p : BlogPostFromDb) (r : BlogRow) : BlogRow :=
  { r with
    title := p.title
    content := p.content
    summary := some (p.summary.getD "")
    tags := p.tags
    published := p.published
    updatedAt := p.updated_at
    indexedAt := p.indexed_at }

/-- BlogPostFromDb::save_or_update (schema.rs, lines 231-274): COUNT rows with
the given uri, then UPDATE every such row if any exist, else INSERT. -/
def save_or_update (p : BlogPostFromDb) (db : BlogDb) : BlogDb :=
  if db.any (fun r => r.uri == p.uri) then
    db.map (fun r => if r.uri == p.uri then updateRow p r else r)
  else db ++ [toInsertRow p]

/-- BlogPostFromDb::delete_by_uri (schema.rs, lines 276-283). -/
def delete_by_uri (uri : String) (db : BlogDb) : BlogDb :=
  db.filter (fun r => r.uri != uri)

/-- Ordering used to model ORDER BY indexedAt DESC. -/
def latest_order (a b : BlogRow) : Prop := b.indexedAt ≤ a.indexedAt

instance latest_order_decidable : DecidableRel latest_order :=
  fun a b => Int.decLe b.indexedAt a.indexedAt

instance latest_order_total : IsTotal BlogRow latest_order :=
  ⟨fun a b => le_total b.indexedAt a.indexedAt⟩

instance latest_order_trans : IsTrans BlogRow latest_order :=
  ⟨fun _ _ _ h1 h2 => le_trans h2 h1⟩

/-- BlogPostFromDb::load_latest_posts (schema.rs, lines 286-304):
SELECT * FROM blog_posts ORDER BY indexedAt DESC LIMIT 10. -/
def load_latest_posts (db : BlogDb) : List BlogPostFromDb :=
  ((db.insertionSort latest_order).take 10).map map_from_row

/-- Outcome of one remote XRPC call as seen by the handlers: success, or an
error whose rendered message may contain the substrings the handlers test.
`hasLexiconOrSchema` models `msg.contains("Lexicon not found") ||
msg.contains("schema")`; `hasRecordNotFound` models
`msg.contains("Record not found") || msg.contains("Could not find record")`. -/
structure RemoteErrMsg where
  hasLexiconOrSchema : Bool
  hasRecordNotFound : Bool
deriving Repr, DecidableEq

/-- Result of a remote put_record / create_record call. -/
inductive RemoteOutcome where
  | ok
  | err (e : RemoteErrMsg)
deriving Repr, DecidableEq

/-- Error taxonomy of the spec's ErrorClassifier as realised by the handlers'
substring tests, which check the schema substrings before the not-found
substrings (basic_usage.rs, lines 712-731). -/
inductive ErrClass where
  | schemaInvalid
  | notFound
  | other
deriving Repr, DecidableEq

/-- Classification of a remote error message by the handlers' branch order. -/
def classify (e : RemoteErrMsg) : ErrClass :=
  if e.hasLexiconOrSchema then .schemaInvalid
  else if e.hasRecordNotFound then .notFound
  else .other

/-- Remote environment of one request: fixes DID-syntax validity of the
session DID (atrium Did::new, an external library, modelled by its verdict),
the OAuth session restore outcome, and the outcome each of the up to four
record calls of one mirror attempt would have. -/
structure RemoteEnv where
  didValid : Bool
  restoreOk : Bool
  putFirst : RemoteOutcome
  putRetry : RemoteOutcome
  createFirst : RemoteOutcome
  createRetry : RemoteOutcome
deriving Repr, DecidableEq

/-- The derived remote address (repository DID, collection NSID, record key).
The Nsid::new / RecordKey::new unwraps are modelled as succeeding: whenever
the mirror code runs, the collection is the fixed valid NSID
com.crabdance.nandi.post and the record key comes from a URI minted by the
create handler. -/
structure RemoteAddr where
  repo : String
  collection : String
  rkey : String
deriving Repr, DecidableEq

/-- A remote repository call issued by a handler, with its validate flag,
address, and record payload (the serialized record_data). -/
inductive RemoteCall where
  | put (validate : Bool) (addr : RemoteAddr) (record : BlogPostRecordData)
  | create (validate : Bool) (addr : RemoteAddr) (record : BlogPostRecordData)
deriving Repr, DecidableEq

/-- True for a put_record call with validate=false. -/
def is_put_retry : RemoteCall → Bool
  | .put false _ _ => true
  | _ => false

/-- True for any create_record call. -/
def is_create_call : RemoteCall → Bool
  | .create _ _ _ => true
  | .put _ _ _ => false

/-- The create fallback block shared by update_blog_post (basic_usage.rs,
lines 735-766) and blog_edit_form_handler_post (lines 1336-1364): one create
with validate=true, retried once with validate=false iff the error message
matches the schema substrings. -/
def create_fallback (env : RemoteEnv) (addr : RemoteAddr)
    (rec : BlogPostRecordData) : List RemoteCall :=
  RemoteCall.create true addr rec ::
    match env.createFirst with
    | .ok => []
    | .err e =>
      if e.hasLexiconOrSchema then [RemoteCall.create false addr rec] else []

/-- One RemoteMirror attempt: the put-then-fallback block shared by
update_blog_post (basic_usage.rs, lines 705-766) and
blog_edit_form_handler_post (lines 1316-1364). A first put with
validate=true; on a schema-matching error one retry put with validate=false;
the create fallback runs whenever did_put stayed false, i.e. after a failed
retry, after a not-found error, and after any other error. -/
def mirror_attempt (env : RemoteEnv) (addr : RemoteAddr)
    (rec : BlogPostRecordData) : List RemoteCall :=
  RemoteCall.put true addr rec ::
    match env.putFirst with
    | .ok => []
    | .err e =>
      if e.hasLexiconOrSchema then
        RemoteCall.put false addr rec ::
          match env.putRetry with
          | .ok => []
          | .err _ => create_fallback env addr rec
      else
        create_fallback env addr rec

/-- Session data extracted from request headers (basic_usage.rs, lines
154-203); handlers that call extract_session receive it as an Option. -/
structure SessionData where
  did : String
deriving Repr, DecidableEq

/-- The caller-visible outcome of a handler. errorRedirect is the create form
handler's Ok(Redirect("/posts?error=...")) on a missing session; errorPage
covers ErrorTemplate and 500 JSON error responses. -/
inductive HandlerResult where
  | success
  | unauthorized
  | notFound
  | forbidden
  | errorPage
  | errorRedirect
deriving Repr, DecidableEq

/-- What a handler produced: its result, the blog_posts table afterwards, and
the remote record calls it issued, in order. -/
structure HandlerOut where
  result : HandlerResult
  db : BlogDb
  calls : List RemoteCall
deriving Repr, DecidableEq

/-- UpdateBlogPostRequest (basic_usage.rs, lines 217-224). -/
structure UpdateBlogPostRequest where
  title : Option String
  content : Option String
  summary : Option String
  tags : Option (List String)
  published : Option Bool
deriving Repr, DecidableEq

/-- The field updates update_blog_post applies to the existing record data
(basic_usage.rs, lines 633-651). -/
def apply_updates (rd : BlogPostRecordData) (req : UpdateBlogPostRequest)
    (now : Int) : BlogPostRecordData :=
  { rd with
    title := req.title.getD rd.title
    content := req.content.getD rd.content
    summary := match req.summary with | some s => some s | none => rd.summary
    tags := match req.tags with | some t => some t | none => rd.tags
    published := match req.published with | some p => some p | none => rd.published
    updated_at := some now }

/-- Splits a character list at every occurrence of the separator, keeping
empty segments, with the semantics of Rust str::split on a char pattern
(an empty input yields one empty segment). -/
def splitChar (c : Char) : List Char → List (List Char)
  | [] => [[]]
  | x :: xs =>
    match splitChar c xs, decide (x = c) with
    | r, true => [] :: r
    | [], false => [[x]]
    | y :: ys, false => (x :: y) :: ys

/-- Models uri.split( '/' ) as a list of segments. -/
def split_slash (s : String) : List String :=
  (splitChar '/' s.data).map String.mk

/-- Models uri.rsplit( '/' ).next(): the last slash-separated segment (the
whole string when it has no slash); Rust rsplit always yields at least one
item, so the Option is always Some. -/
def rsplit_next (s : String) : String := (split_slash s).getLast?.getD ""

/-- Models uri.split( '/' ).nth(3): for at://did/collection/rkey this is the
collection segment. -/
def uri_collection (s : String) : Option String := (split_slash s)[3]?

/-- PUT /api/posts/*uri handler update_blog_post (basic_usage.rs, lines
583-776). The existing post is looked up in load_latest_posts (so only one of
the ten most recently indexed rows can be updated); ownership is checked
against the session DID; the row is committed locally with save_or_update;
then, only for the custom collection, a best-effort mirror attempt runs whose
failures are logged and never change the response. -/
def update_blog_post (sess : Option SessionData) (db : BlogDb) (uri : String)
    (req : UpdateBlogPostRequest) (env : RemoteEnv) (now : Int) : HandlerOut :=
  match sess with
  | none => ⟨.unauthorized, db, []⟩
  | some session =>
    match (load_latest_posts db).find? (fun p => p.uri == uri) with
    | none => ⟨.notFound, db, []⟩
    | some existing =>
      if existing.author_did != session.did then ⟨.forbidden, db, []⟩
      else
        let rd := apply_updates (to_codegen_record_data existing) req now
        let updated := from_codegen_record_data uri session.did rd now
        let db2 := save_or_update updated db
        let calls :=
          match uri_collection uri with
          | none => []
          | some coll =>
            if coll == "com.crabdance.nandi.post" then
              if env.didValid then
                if env.restoreOk then
                  mirror_attempt env ⟨session.did, coll, rsplit_next uri⟩ rd
                else []
              else []
            else []
        ⟨.success, db2, calls⟩

/-- POST /posts/create handler blog_create_form_handler_post (basic_usage.rs,
lines 975-1108). Form-level inputs arrive already decoded: formTags is the
result of form.tags.as_ref().and_then(parse_tags_input) (a pure string
normalizer no claim depends on) and formPublishedBox is
form.published.is_some(). A missing session yields Ok(Redirect with an error
query). After the local save, Did::new is checked with the question-mark
operator, so a DID-syntax failure returns an ErrorTemplate even though the
row is committed; restore and create failures only log. The
register_custom_lexicon call (its outcome is ignored) is not traced. -/
def blog_create_form_handler_post (sess : Option SessionData) (db : BlogDb)
    (formTitle formContent : String) (formSummary : Option String)
    (formTags : Option (List String)) (formPublishedBox : Bool)
    (env : RemoteEnv) (now : Int) : HandlerOut :=
  match sess with
  | none => ⟨.errorRedirect, db, []⟩
  | some session =>
    let rkey := "post-" ++ toString now
    let uri := "at://" ++ session.did ++ "/com.crabdance.nandi.post/" ++ rkey
    let rd : BlogPostRecordData :=
      { title := formTitle
        content := formContent
        summary := formSummary.filter (fun s => s != "")
        tags := formTags
        published := some formPublishedBox
        created_at := now
        updated_at := some now }
    let post := from_codegen_record_data uri session.did rd now
    match save post db with
    | none => ⟨.errorPage, db, []⟩
    | some db2 =>
      if env.didValid then
        let calls :=
          if env.restoreOk then
            create_fallback env ⟨session.did, "com.crabdance.nandi.post", rkey⟩ rd
          else []
        ⟨.success, db2, calls⟩
      else ⟨.errorPage, db2, []⟩

/-- POST /posts/update/*uri handler blog_edit_form_handler_post
(basic_usage.rs, lines 1211-1374). The handler takes no session: its own
comment reads "(Future) enforce auth here as well", and no identity is
compared before the row is rewritten. The rebuilt record keeps the stored
author_did; the local save_or_update is followed by the same best-effort
mirror attempt as update_blog_post, keyed by the stored author DID. -/
def blog_edit_form_handler_post (db : BlogDb) (uri : String)
    (formTitle formContent : String) (formSummary : Option String)
    (formTags : Option (List String)) (formPublishedBox : Bool)
    (env : RemoteEnv) (now : Int) : HandlerOut :=
  match (load_latest_posts db).find? (fun p => p.uri == uri) with
  | none => ⟨.errorPage, db, []⟩
  | some existing =>
    let rd : BlogPostRecordData :=
      { to_codegen_record_data existing with
        title := formTitle
        content := formContent
        summary := formSummary.filter (fun s => s != "")
        tags := formTags
        published := some formPublishedBox
        updated_at := some now }
    let updated := from_codegen_record_data existing.uri existing.author_did rd now
    let db2 := save_or_update updated db
    let calls :=
      if env.didValid then
        if env.restoreOk then
          let parts := split_slash existing.uri
          if parts.length ≥ 5 then
            let coll := parts.getD 3 ""
            let rkey := parts.getD 4 ""
            if coll == "com.crabdance.nandi.post" then
              mirror_attempt env ⟨existing.author_did, coll, rkey⟩ rd
            else []
          else []
        else []
      else []
    ⟨.success, db2, calls⟩

/-- POST /posts/delete/:rkey handler blog_delete_form_handler_post
(basic_usage.rs, lines 1379-1409). It also takes no session ("(Future)
enforce auth here as well"); it resolves the full uri by record key among the
latest posts and deletes the row without any identity comparison. -/
def blog_delete_form_handler_post (db : BlogDb) (rkey : String) :
    HandlerResult × BlogDb :=
  match (load_latest_posts db).find? (fun p => rsplit_next p.uri == rkey) with
  | none => ⟨.errorPage, db⟩
  | some p => ⟨.success, delete_by_uri p.uri db⟩

/-- DELETE /api/posts/*uri handler delete_blog_post (basic_usage.rs, lines
779-831): authenticated, with the ownership check before the local delete. -/
def delete_blog_post (sess : Option SessionData) (db : BlogDb) (uri : String) :
    HandlerResult × BlogDb :=
  match sess with
  | none => ⟨.unauthorized, db⟩
  | some session =>
    match (load_latest_posts db).find? (fun p => p.uri == uri) with
    | none => ⟨.notFound, db⟩
    | some existing =>
      if existing.author_did != session.did then ⟨.forbidden, db⟩
      else ⟨.success, delete_by_uri uri db⟩

/-- AuthSession row (src/db.rs, lines 44-49). -/
structure AuthSession where
  key : String
  session : String
deriving Repr, DecidableEq

/-- Possible outcomes of AuthSession::get_by_did: a panic (the unwrap of
Did::new), a normal result, or a database error. -/
inductive GetByDidOutcome where
  | panics
  | ok (s : Option AuthSession)
deriving Repr, DecidableEq

/-- AuthSession::get_by_did (src/db.rs, lines 72-87). Did::new is the
external atrium DID-syntax parser, modelled by its verdict didValid; its
result is unwrapped before the query runs, so an invalid DID panics. A valid
DID with no matching row maps QueryReturnedNoRows to Ok(None). -/
def get_by_did (didValid : String → Bool) (table : List AuthSession)
    (did : String) : GetByDidOutcome :=
  if didValid did then
    match table.find? (fun s => s.key == did) with
    | some s => .ok (some s)
    | none => .ok none
  else .panics

/-! Concrete values used by counterexamples and witnesses. -/

/-- A concrete remote address. -/
def addr0 : RemoteAddr :=
  ⟨"did:plc:alice", "com.crabdance.nandi.post", "post-1"⟩

/-- A concrete record payload. -/
def rec0 : BlogPostRecordData :=
  ⟨"Title", "Body", none, none, some true, 0, some 0⟩

/-- Environment where the first put fails with a schema-matching message and
the validate=false retry fails too. -/
def envSchemaFail : RemoteEnv :=
  ⟨true, true, .err ⟨true, false⟩, .err ⟨false, false⟩, .err ⟨false, false⟩, .ok⟩

/-- Environment where the first put fails with a message matching neither the
schema nor the not-found substrings. -/
def envOtherFail : RemoteEnv :=
  ⟨true, true, .err ⟨false, false⟩, .ok, .ok, .ok⟩

/-- Environment where every remote call would succeed but the session DID
does not parse. -/
def envBadDid : RemoteEnv := ⟨false, true, .ok, .ok, .ok, .ok⟩

/-- Every call of the create fallback is a create_record call. -/
theorem create_fallback_creates (env : RemoteEnv) (addr : RemoteAddr)
    (rec : BlogPostRecordData) :
    ∀ c ∈ create_fallback env addr rec, is_create_call c = true := by
  intro c hc
  unfold create_fallback at hc
  rcases List.mem_cons.mp hc with h | hc
  · simp [h, is_create_call]
  · cases henv : env.createFirst with
    | ok => simp [henv] at hc
    | err e =>
      simp only [henv] at hc
      by_cases hs : e.hasLexiconOrSchema
      · simp [hs] at hc; simp [hc, is_create_call]
      · simp [hs] at hc

/-- The create fallback never issues a put_record call. -/
theorem create_fallback_no_put_retry (env : RemoteEnv) (addr : RemoteAddr)
    (rec : BlogPostRecordData) :
    ∀ c ∈ create_fallback env addr rec, is_put_retry c = false := by
  intro c hc
  have h := create_fallback_creates env addr rec c hc
  cases c with
  | put v a r => simp [is_create_call] at h
  | create v a r => simp [is_put_retry]

/-- C2 counterexample: with a schema-classified first failure and a failed
validate=false retry, the mirror attempt goes on to issue a create call, so
the trace is not just the two puts the claim allows. -/
theorem C2_counterexample :
    RemoteCall.create true addr0 rec0 ∈ mirror_attempt envSchemaFail addr0 rec0 ∧
    mirror_attempt envSchemaFail addr0 rec0 ≠
      [RemoteCall.put true addr0 rec0, RemoteCall.put false addr0 rec0] := by
  decide

/-- C2 (amended): when the first put fails with a schema-classified error,
exactly one retry put with validate=false is issued; if the retry succeeds no
further remote calls are made, and if it fails the handler falls through to
the create fallback, all of whose calls are creates. -/
theorem C2_schema_retry (env : RemoteEnv) (addr : RemoteAddr)
    (rec : BlogPostRecordData) (e : RemoteErrMsg)
    (h1 : env.putFirst = .err e) (h2 : classify e = .schemaInvalid) :
    (env.putRetry = .ok →
      mirror_attempt env addr rec =
        [RemoteCall.put true addr rec, RemoteCall.put false addr rec]) ∧
    (∀ e2, env.putRetry = .err e2 →
      mirror_attempt env addr rec =
        RemoteCall.put true addr rec :: RemoteCall.put false addr rec ::
          create_fallback env addr rec) ∧
    (mirror_attempt env addr rec).countP is_put_retry = 1 := by
  have hs : e.hasLexiconOrSchema = true := by
    by_contra h
    simp only [Bool.not_eq_true] at h
    simp [classify, h] at h2
    split at h2 <;> simp_all
  refine ⟨?_, ?_, ?_⟩
  · intro hr
    simp [mirror_attempt, h1, hs, hr]
  · intro e2 hr
    simp [mirror_attempt, h1, hs, hr]
  · have hz : (create_fallback env addr rec).countP is_put_retry = 0 := by
      rw [List.countP_eq_zero]
      intro c hc
      simpa using create_fallback_no_put_retry env addr rec c hc
    cases hr : env.putRetry with
    | ok =>
      simp [mirror_attempt, h1, hs, hr, List.countP_cons, is_put_retry]
    | err e2 =>
      simp [mirror_attempt, h1, hs, hr, List.countP_cons, is_put_retry, hz]

/-- C2 witness: the amended theorem applied at a concrete schema failure. -/
theorem C2_schema_retry_witness :
    mirror_attempt envSchemaFail addr0 rec0 =
      RemoteCall.put true addr0 rec0 :: RemoteCall.put false addr0 rec0 ::
        create_fallback envSchemaFail addr0 rec0 :=
  (C2_schema_retry envSchemaFail addr0 rec0 ⟨true, false⟩ rfl rfl).2.1
    ⟨false, false⟩ rfl

/-- C4 counterexample: after a first put failure classified as neither schema
nor not-found, the attempt is not abandoned; a create call is issued. -/
theorem C4_counterexample :
    RemoteCall.create true addr0 rec0 ∈ mirror_attempt envOtherFail addr0 rec0 := by
  decide

/-- C4 (amended): when the first put fails with an other-classified error, no
validate=false put retry is issued, but the create fallback runs immediately
after the put. -/
theorem C4_other_error (env : RemoteEnv) (addr : RemoteAddr)
    (rec : BlogPostRecordData) (e : RemoteErrMsg)
    (h1 : env.putFirst = .err e) (h2 : classify e = .other) :
    mirror_attempt env addr rec =
      RemoteCall.put true addr rec :: create_fallback env addr rec ∧
    (∀ c ∈ mirror_attempt env addr rec, is_put_retry c = false) := by
  have hs : e.hasLexiconOrSchema = false := by
    by_contra h
    simp only [Bool.not_eq_false] at h
    simp [classify, h] at h2
  constructor
  · simp [mirror_attempt, h1, hs]
  · intro c hc
    simp only [mirror_attempt, h1, hs] at hc
    simp only [Bool.false_eq_true, if_false] at hc
    rcases List.mem_cons.mp hc with h | h
    · simp [h, is_put_retry]
    · exact create_fallback_no_put_retry env addr rec c h

/-- C4 witness: the amended theorem applied at a concrete other-error. -/
theorem C4_other_error_witness :
    mirror_attempt envOtherFail addr0 rec0 =
      RemoteCall.put true addr0 rec0 :: create_fallback envOtherFail addr0 rec0 :=
  (C4_other_error envOtherFail addr0 rec0 ⟨false, false⟩ rfl rfl).1

/-- C5: when the first put fails with a not-found-classified error, the next
remote call is a create with the same validate flag, the same derived
address, and the same record payload as the put, and no validate=false put is
ever issued. -/
theorem C5_notfound_create (env : RemoteEnv) (addr : RemoteAddr)
    (rec : BlogPostRecordData) (e : RemoteErrMsg)
    (h1 : env.putFirst = .err e) (h2 : classify e = .notFound) :
    (mirror_attempt env addr rec).take 2 =
      [RemoteCall.put true addr rec, RemoteCall.create true addr rec] ∧
    (∀ c ∈ mirror_attempt env addr rec, is_put_retry c = false) := by
  have hs : e.hasLexiconOrSchema = false := by
    by_contra h
    simp only [Bool.not_eq_false] at h
    simp [classify, h] at h2
  constructor
  · simp [mirror_attempt, h1, hs, create_fallback]
  · intro c hc
    simp only [mirror_attempt, h1, hs] at hc
    simp only [Bool.false_eq_true, if_false] at hc
    rcases List.mem_cons.mp hc with h | h
    · simp [h, is_put_retry]
    · exact create_fallback_no_put_retry env addr rec c h

/-- C5 witness: a concrete environment whose first put fails with a
Record-not-found message. -/
theorem C5_notfound_create_witness :
    (mirror_attempt ⟨true, true, .err ⟨false, true⟩, .ok, .ok, .ok⟩ addr0 rec0).take 2 =
      [RemoteCall.put true addr0 rec0, RemoteCall.create true addr0 rec0] :=
  (C5_notfound_create ⟨true, true, .err ⟨false, true⟩, .ok, .ok, .ok⟩ addr0 rec0
    ⟨false, true⟩ rfl rfl).1

/-- The response and the local table produced by update_blog_post do not
depend on the remote environment at all. -/
theorem update_blog_post_env_irrelevant (sess : Option SessionData)
    (db : BlogDb) (uri : String) (req : UpdateBlogPostRequest)
    (env env' : RemoteEnv) (now : Int) :
    (update_blog_post sess db uri req env now).result =
      (update_blog_post sess db uri req env' now).result ∧
    (update_blog_post sess db uri req env now).db =
      (update_blog_post sess db uri req env' now).db := by
  cases sess with
  | none => exact ⟨rfl, rfl⟩
  | some session =>
    cases hf : (load_latest_posts db).find? (fun p => p.uri == uri) with
    | none => simp [update_blog_post, hf]
    | some ex =>
      cases ho : ex.author_did != session.did <;>
        simp [update_blog_post, hf, ho]

/-- The response and the local table produced by blog_edit_form_handler_post
do not depend on the remote environment at all. -/
theorem edit_form_env_irrelevant (db : BlogDb) (uri : String)
    (ft fc : String) (fs : Option String) (ftg : Option (List String))
    (fp : Bool) (env env' : RemoteEnv) (now : Int) :
    (blog_edit_form_handler_post db uri ft fc fs ftg fp env now).result =
      (blog_edit_form_handler_post db uri ft fc fs ftg fp env' now).result ∧
    (blog_edit_form_handler_post db uri ft fc fs ftg fp env now).db =
      (blog_edit_form_handler_post db uri ft fc fs ftg fp env' now).db := by
  cases hf : (load_latest_posts db).find? (fun p => p.uri == uri) with
  | none => simp [blog_edit_form_handler_post, hf]
  | some ex => simp [blog_edit_form_handler_post, hf]

/-- The local table produced by blog_create_form_handler_post does not depend
on the remote environment, and its response depends on the environment only
through DID-syntax validity. -/
theorem create_form_env_dependence (sess : Option SessionData) (db : BlogDb)
    (ft fc : String) (fs : Option String) (ftg : Option (List String))
    (fp : Bool) (env env' : RemoteEnv) (now : Int) :
    (blog_create_form_handler_post sess db ft fc fs ftg fp env now).db =
      (blog_create_form_handler_post sess db ft fc fs ftg fp env' now).db ∧
    (env.didValid = env'.didValid →
      (blog_create_form_handler_post sess db ft fc fs ftg fp env now).result =
        (blog_create_form_handler_post sess db ft fc fs ftg fp env' now).result) := by
  cases sess with
  | none => exact ⟨rfl, fun _ => rfl⟩
  | some session =>
    constructor
    · simp only [blog_create_form_handler_post]
      split
      · next h => simp [h]
      · next d2 h =>
        cases hd : env.didValid <;> cases hd' : env'.didValid <;> simp [hd, hd']
    · intro heq
      simp only [blog_create_form_handler_post]
      split
      · next h => simp [h]
      · next d2 h =>
        rw [heq]
        cases hd' : env'.didValid <;> simp [hd']

/-- C1 counterexample: in the create form handler, with a fresh store, the
local save succeeds and commits a row, yet the caller receives an error,
because the session DID fails the DID-syntax parse performed after the local
save (Did::new is unwrapped with the question-mark operator). -/
theorem C1_counterexample :
    (blog_create_form_handler_post (some ⟨"not-a-did"⟩) [] "Title" "Body"
        none none false envBadDid 7).result = HandlerResult.errorPage ∧
    (blog_create_form_handler_post (some ⟨"not-a-did"⟩) [] "Title" "Body"
        none none false envBadDid 7).db ≠ [] := by
  decide

/-- C1 (amended): the result and the committed local row of the update
handler and of the edit form handler are independent of every remote-mirror
outcome; the create form handler likewise never rolls back its committed row,
and its result is independent of the remote outcomes except through
DID-syntax validity of the session DID: with equal DID verdicts the results
agree, and a DID parse failure after a successful save returns an error while
the row stays committed. -/
theorem C1_local_write_authority (sess : Option SessionData) (db : BlogDb)
    (uri ft fc : String) (fs : Option String) (ftg : Option (List String))
    (fp : Bool) (req : UpdateBlogPostRequest) (env env' : RemoteEnv)
    (now : Int) :
    ((update_blog_post sess db uri req env now).result =
        (update_blog_post sess db uri req env' now).result ∧
      (update_blog_post sess db uri req env now).db =
        (update_blog_post sess db uri req env' now).db) ∧
    ((blog_edit_form_handler_post db uri ft fc fs ftg fp env now).result =
        (blog_edit_form_handler_post db uri ft fc fs ftg fp env' now).result ∧
      (blog_edit_form_handler_post db uri ft fc fs ftg fp env now).db =
        (blog_edit_form_handler_post db uri ft fc fs ftg fp env' now).db) ∧
    ((blog_create_form_handler_post sess db ft fc fs ftg fp env now).db =
        (blog_create_form_handler_post sess db ft fc fs ftg fp env' now).db) ∧
    (env.didValid = env'.didValid →
      (blog_create_form_handler_post sess db ft fc fs ftg fp env now).result =
        (blog_create_form_handler_post sess db ft fc fs ftg fp env' now).result) :=
  ⟨update_blog_post_env_irrelevant sess db uri req env env' now,
   edit_form_env_irrelevant db uri ft fc fs ftg fp env env' now,
   (create_form_env_dependence sess db ft fc fs ftg fp env env' now).1,
   (create_form_env_dependence sess db ft fc fs ftg fp env env' now).2⟩

/-- C1 witness: the amended theorem at concrete inputs, comparing an
environment in which every remote call fails against one in which every
remote call succeeds. -/
theorem C1_local_write_authority_witness :
    (blog_create_form_handler_post (some ⟨"did:plc:alice"⟩) [] "T" "B" none
        none false envSchemaFail 7).result =
      (blog_create_form_handler_post (some ⟨"did:plc:alice"⟩) [] "T" "B" none
        none false ⟨true, true, .ok, .ok, .ok, .ok⟩ 7).result :=
  (C1_local_write_authority (some ⟨"did:plc:alice"⟩) [] "u" "T" "B" none none
    false ⟨none, none, none, none, none⟩ envSchemaFail
    ⟨true, true, .ok, .ok, .ok, .ok⟩ 7).2.2.2 rfl

/-- A stored row authored by alice, used to evaluate the form handlers. -/
def alicePostRow : BlogRow :=
  ⟨"at://did:plc:alice/com.crabdance.nandi.post/p1", "did:plc:alice",
   "Alice title", "Alice content", some "", ["tag"], true, 10, 10, 10⟩

/-- C3: the form entry points perform no ownership check at all. The delete
form handler and the edit form handler take no identity (their own comments
read "(Future) enforce auth here as well"), yet they delete and rewrite the
stored row authored by alice: the delete succeeds and empties the store, and
the edit succeeds and replaces title/content of the row while keeping the
stored author_did, all without any identity comparison. -/
theorem C3_forms_skip_ownership_check :
    (blog_delete_form_handler_post [alicePostRow] "p1").1 =
      HandlerResult.success ∧
    (blog_delete_form_handler_post [alicePostRow] "p1").2 = [] ∧
    (blog_edit_form_handler_post [alicePostRow]
        "at://did:plc:alice/com.crabdance.nandi.post/p1" "Defaced title"
        "Defaced content" none none false envBadDid 99).result =
      HandlerResult.success ∧
    (blog_edit_form_handler_post [alicePostRow]
        "at://did:plc:alice/com.crabdance.nandi.post/p1" "Defaced title"
        "Defaced content" none none false envBadDid 99).db =
      [{ alicePostRow with
          title := "Defaced title"
          content := "Defaced content"
          summary := some ""
          tags := []
          published := false
          updatedAt := 99
          indexedAt := 99 }] := by
  decide

/-- C6: save_or_update with an already-stored uri keeps the table length,
leaves every row with a different uri unchanged, and on the matching row
updates exactly title, content, summary, tags, published, updatedAt and
indexedAt while keeping uri, authorDid and createdAt; with a fresh uri it
appends the full new row. -/
theorem C6_upsert_frame (p : BlogPostFromDb) (db : BlogDb) :
    (db.any (fun r => r.uri == p.uri) = false →
      save_or_update p db = db ++ [toInsertRow p]) ∧
    (db.any (fun r => r.uri == p.uri) = true →
      (save_or_update p db).length = db.length ∧
      ∀ (i : Nat) (old : BlogRow), db[i]? = some old →
        ∃ new, (save_or_update p db)[i]? = some new ∧
          (old.uri ≠ p.uri → new = old) ∧
          (old.uri = p.uri →
            new.uri = old.uri ∧ new.authorDid = old.authorDid ∧
            new.createdAt = old.createdAt ∧ new.title = p.title ∧
            new.content = p.content ∧ new.summary = some (p.summary.getD "") ∧
            new.tags = p.tags ∧ new.published = p.published ∧
            new.updatedAt = p.updated_at ∧ new.indexedAt = p.indexed_at)) := by
  constructor
  · intro h
    simp [save_or_update, h]
  · intro h
    constructor
    · simp [save_or_update, h]
    · intro i old hold
      refine ⟨if old.uri == p.uri then updateRow p old else old, ?_, ?_, ?_⟩
      · simp [save_or_update, h, List.getElem?_map, hold]
      · intro hne
        simp [hne]
      · intro he
        simp [he, updateRow]

/-- A concrete blog post used by witnesses. -/
def post0 : BlogPostFromDb :=
  ⟨"at://did:plc:alice/com.crabdance.nandi.post/p1", "did:plc:alice", "T",
   "B", none, ["x"], true, 1, 2, 3, none⟩

/-- C6 witness: the frame theorem at a concrete empty and singleton store. -/
theorem C6_upsert_frame_witness :
    save_or_update post0 [] = [] ++ [toInsertRow post0] ∧
    (save_or_update post0 [toInsertRow post0]).length = 1 :=
  ⟨(C6_upsert_frame post0 []).1 rfl,
   ((C6_upsert_frame post0 [toInsertRow post0]).2 (by decide)).1⟩

/-- The create-then-read-back round trip at the record-data level: convert
the record data to the DB model, store it as a row, map the row back and
convert it to record data again. -/
def read_back (uri did : String) (data : BlogPostRecordData) (now : Int) :
    BlogPostRecordData :=
  to_codegen_record_data (map_from_row (toInsertRow
    (from_codegen_record_data uri did data now)))

/-- C7: the round trip preserves title and content exactly, preserves tags as
an ordered sequence (with an absent sequence equivalent to an empty one, per
the claim), returns published as the explicit stored flag, which is
identical to the input whenever the input carries one (an input without a
published flag is created as false), and a record stored with absent tags is
indistinguishable on read from one stored with an empty tag list. -/
theorem C7_round_trip (uri did : String) (data : BlogPostRecordData)
    (now : Int) :
    (read_back uri did data now).title = data.title ∧
    (read_back uri did data now).content = data.content ∧
    (read_back uri did data now).tags.getD [] = data.tags.getD [] ∧
    (read_back uri did data now).published = some (data.published.getD false) ∧
    (∀ p, data.published = some p →
      (read_back uri did data now).published = some p) ∧
    read_back uri did { data with tags := none } now =
      read_back uri did { data with tags := some [] } now := by
  refine ⟨rfl, rfl, ?_, rfl, ?_, rfl⟩
  · cases h : data.tags with
    | none =>
      simp [read_back, to_codegen_record_data, map_from_row, toInsertRow,
        from_codegen_record_data, h]
    | some l =>
      cases l <;>
        simp [read_back, to_codegen_record_data, map_from_row, toInsertRow,
          from_codegen_record_data, h]
  · intro p hp
    simp [read_back, to_codegen_record_data, map_from_row, toInsertRow,
      from_codegen_record_data, hp]

/-- C7 witness: the round trip at a concrete record with an explicit
published flag. -/
theorem C7_round_trip_witness :
    (read_back "u" "d" rec0 3).published = some true :=
  (C7_round_trip "u" "d" rec0 3).2.2.2.2.1 true rfl

/-- C9: get_by_did panics on every DID-syntax-invalid input (Did::new is
unwrapped before the query), and for a valid DID with no stored row it
returns Ok(None). The DID-syntax verdict of the external atrium parser is an
abstract predicate. -/
theorem C9_get_by_did_spec (didValid : String → Bool)
    (table : List AuthSession) (did : String) :
    (didValid did = false → get_by_did didValid table did = .panics) ∧
    (didValid did = true → table.find? (fun s => s.key == did) = none →
      get_by_did didValid table did = .ok none) := by
  constructor
  · intro h
    simp [get_by_did, h]
  · intro h hf
    simp [get_by_did, h, hf]

/-- An example DID-syntax verdict used by the C9 witness. -/
def didIsValid (s : String) : Bool := s.data.take 4 == "did:".data

/-- C9 witness: a syntactically invalid DID panics; a valid one with an empty
session table yields Ok(None). -/
theorem C9_get_by_did_spec_witness :
    get_by_did didIsValid [] "not-a-did" = .panics ∧
    get_by_did didIsValid [] "did:plc:alice" = .ok none :=
  ⟨(C9_get_by_did_spec didIsValid [] "not-a-did").1 (by decide),
   (C9_get_by_did_spec didIsValid [] "did:plc:alice").2 (by decide) rfl⟩

/-- C10: a record saved with summary = None is read back with
summary = Some(""), identically to a record saved with Some(""), because save
binds summary.unwrap_or_default(); hence the summary column is never NULL
when written and the field does not round-trip as-is. -/
theorem C10_summary_conflation (p : BlogPostFromDb) :
    (p.summary = none →
      (map_from_row (toInsertRow p)).summary = some "" ∧
      (map_from_row (toInsertRow p)).summary ≠ p.summary) ∧
    (p.summary = some "" → (map_from_row (toInsertRow p)).summary = some "") ∧
    (map_from_row (toInsertRow p)).summary = some (p.summary.getD "") := by
  refine ⟨?_, ?_, rfl⟩
  · intro h
    simp [map_from_row, toInsertRow, h]
  · intro h
    simp [map_from_row, toInsertRow, h]

/-- C10 witness: the conflation at a concrete record without a summary. -/
theorem C10_summary_conflation_witness :
    (map_from_row (toInsertRow post0)).summary = some "" :=
  ((C10_summary_conflation post0).1 rfl).1

/-- A minimal row with a given indexedAt, for the load_latest_posts
counterexample. -/
def exRow (i : Int) : BlogRow := ⟨"", "", "", "", none, [], false, 0, 0, i⟩

/-- An eleven-row store. -/
def exDb11 : BlogDb :=
  [exRow 0, exRow 1, exRow 2, exRow 3, exRow 4, exRow 5, exRow 6, exRow 7,
   exRow 8, exRow 9, exRow 10]

/-- A two-row store with equal indexedAt values. -/
def exDbTie : BlogDb := [exRow 5, exRow 5]

/-- C8 counterexample: load_latest_posts carries LIMIT 10, so on an
eleven-row store it does not return all records; and on a store with two
equal indexedAt values the result has a tie, so its order is not strictly
descending. -/
theorem C8_counterexample :
    (load_latest_posts exDb11).length = 10 ∧ exDb11.length = 11 ∧
    (load_latest_posts exDbTie).map (fun p => p.indexed_at) = [5, 5] := by
  decide

/-- C8 (amended): load_latest_posts returns rows of the store ordered
non-increasingly (strictly descending whenever indexed_at values are
distinct) by indexed_at, truncated to at most ten records; when the store
has at most ten rows it returns all of them up to order. -/
theorem C8_load_latest_spec (db : BlogDb) :
    List.Pairwise
      (fun a b : BlogPostFromDb => b.indexed_at ≤ a.indexed_at)
      (load_latest_posts db) ∧
    (load_latest_posts db).length = min 10 db.length ∧
    (∀ p ∈ load_latest_posts db, ∃ r ∈ db, p = map_from_row r) ∧
    (db.length ≤ 10 → (load_latest_posts db).Perm (db.map map_from_row)) := by
  have hperm : (db.insertionSort latest_order).Perm db :=
    List.perm_insertionSort latest_order db
  have hsorted : (db.insertionSort latest_order).Pairwise latest_order :=
    List.sorted_insertionSort latest_order db
  have htake : ((db.insertionSort latest_order).take 10).Pairwise latest_order :=
    List.Pairwise.sublist (List.take_sublist 10 _) hsorted
  refine ⟨?_, ?_, ?_, ?_⟩
  · rw [load_latest_posts, List.pairwise_map]
    exact htake.imp (fun hab => hab)
  · simp [load_latest_posts, List.length_take, hperm.length_eq]
  · intro p hp
    simp only [load_latest_posts, List.mem_map] at hp
    obtain ⟨r, hr, rfl⟩ := hp
    exact ⟨r, hperm.mem_iff.mp (List.take_subset _ _ hr), rfl⟩
  · intro hle
    have ht : (db.insertionSort latest_order).take 10 = db.insertionSort latest_order :=
      List.take_of_length_le (by rw [hperm.length_eq]; exact hle)
    rw [load_latest_posts, ht]
    exact hperm.map map_from_row

/-- C8 witness: on a two-row store the result is all rows up to order. -/
theorem C8_load_latest_spec_witness :
    (load_latest_posts [exRow 1, exRow 2]).Perm
      ([exRow 1, exRow 2].map map_from_row) :=
  (C8_load_latest_spec [exRow 1, exRow 2]).2.2.2 (by decide)

end Atproto
